import Mathlib

/-!
Shallow embedding of the Durin host-side control/telemetry layer
(`durin/actuator.py`, `durin/sensor.py`, `durin/io/network.py`,
`durin/controller/server.py`) and proofs about its wire formats,
queue behaviour, telemetry aggregation and DVS control protocol.

Byte buffers are `List Nat` (each element a byte value 0..255),
machine floats are idealised as `ℚ`, and fallible Python operations
return `Except PyError`.
-/

set_option maxRecDepth 40000

namespace Durin

/-- The Python exceptions the embedded code can raise. -/
inductive PyError where
  | structError
  | valueError
  | overflowError
  | indexError
  deriving DecidableEq, Repr

/-- Python slice assignment `data[i:j] = xs` (used only with `xs.length = j - i`). -/
def setSlice (l : List α) (i j : Nat) (xs : List α) : List α :=
  l.take i ++ xs ++ l.drop j

/-- Two's-complement little-endian byte pair of an `int16` value,
the payload of `struct.pack("<h", x)`. -/
def int16LE (x : Int) : List Nat :=
  let u := (x % 65536).toNat
  [u % 256, u / 256]

/-- `struct.pack("<h", x)`: raises `struct.error` unless `-32768 ≤ x ≤ 32767`. -/
def pack_h (x : Int) : Except PyError (List Nat) :=
  if -32768 ≤ x ∧ x ≤ 32767 then .ok (int16LE x) else .error .structError

/-- `n.to_bytes(2, "little")`: raises `OverflowError` unless `n < 65536`. -/
def toBytes2LE (n : Nat) : Except PyError (List Nat) :=
  if n < 65536 then .ok [n % 256, n / 256] else .error .overflowError

/-- `n.to_bytes(1, "little")`: raises `OverflowError` unless `n < 256`. -/
def toBytes1LE (n : Nat) : Except PyError (List Nat) :=
  if n < 256 then .ok [n] else .error .overflowError

/-- `bytearray` item assignment `data[i] = v`: raises `ValueError` unless `v < 256`. -/
def byteSet (l : List Nat) (i v : Nat) : Except PyError (List Nat) :=
  if v < 256 then .ok (l.set i v) else .error .valueError

/-- `int.from_bytes(bs, "little")`. -/
def fromLEBytes (bs : List Nat) : Nat :=
  bs.foldr (fun b acc => b + 256 * acc) 0

/-- `PowerOff.encode` (`actuator.py:31`): `cmd_id = 1`. -/
def PowerOff_encode : List Nat :=
  let data := List.replicate 1 0
  data.set 0 1

/-- `Move.encode` (`actuator.py:53`): `cmd_id = 2`, then
`<h` little-endian `vel_x`, `vel_y`, `-rot`. -/
def Move_encode (vel_x vel_y rot : Int) : Except PyError (List Nat) := do
  let data := List.replicate 7 0
  let data := data.set 0 2
  let data := setSlice data 1 3 (← pack_h vel_x)
  let data := setSlice data 3 5 (← pack_h vel_y)
  let data := setSlice data 5 7 (← pack_h (-rot))
  return data

/-- `MoveWheels.encode` (`actuator.py:90`): `cmd_id = 3`, then
`<h` little-endian `-se`, `sw`, `-ne`, `nw`. -/
def MoveWheels_encode (ne nw sw se : Int) : Except PyError (List Nat) := do
  let data := List.replicate 9 0
  let data := data.set 0 3
  let data := setSlice data 1 3 (← pack_h (-se))
  let data := setSlice data 3 5 (← pack_h sw)
  let data := setSlice data 5 7 (← pack_h (-ne))
  let data := setSlice data 7 9 (← pack_h nw)
  return data

/-- `PollAll.encode` (`actuator.py:115`): `cmd_id = 16`. -/
def PollAll_encode : List Nat :=
  let data := List.replicate 1 0
  data.set 0 16

/-- `PollSensor.encode` (`actuator.py:127`): `cmd_id = 17`, then the sensor id
as one little-endian byte. -/
def PollSensor_encode (sensor_id : Nat) : Except PyError (List Nat) := do
  let data := List.replicate 2 0
  let data := data.set 0 17
  let data := setSlice data 1 2 (← toBytes1LE sensor_id)
  return data

/-- `host.split(".")` on the underlying character list. -/
def splitOnDot : List Char → List (List Char)
  | [] => [[]]
  | c :: rest =>
    let r := splitOnDot rest
    if c = '.' then [] :: r
    else
      match r with
      | [] => [[c]]
      | h :: t => (c :: h) :: t

/-- Python `int(s)` on a decimal string: raises `ValueError` on a
non-numeric string. -/
def pyInt (cs : List Char) : Except PyError Nat :=
  if cs ≠ [] ∧ cs.all (·.isDigit) then
    .ok (cs.foldl (fun acc c => acc * 10 + (c.toNat - 48)) 0)
  else .error .valueError

/-- Python list indexing `l[i]`: raises `IndexError` when out of range. -/
def pyGet (l : List α) (i : Nat) : Except PyError α :=
  match l.get? i with
  | some x => .ok x
  | none => .error .indexError

/-- `StreamOn.encode` (`actuator.py:144`): `cmd_id = 18`, the four dotted-quad
octets of `host` in order, then little-endian `uint16` port and period. -/
def StreamOn_encode (host : String) (port period : Nat) :
    Except PyError (List Nat) := do
  let data := List.replicate 9 0
  let data := data.set 0 18
  let hostParts := splitOnDot host.data
  let data ← byteSet data 1 (← pyInt (← pyGet hostParts 0))
  let data ← byteSet data 2 (← pyInt (← pyGet hostParts 1))
  let data ← byteSet data 3 (← pyInt (← pyGet hostParts 2))
  let data ← byteSet data 4 (← pyInt (← pyGet hostParts 3))
  let data := setSlice data 5 7 (← toBytes2LE port)
  let data := setSlice data 7 9 (← toBytes2LE period)
  return data

/-- `StreamOff.encode` (`actuator.py:161`): `cmd_id = 19`. -/
def StreamOff_encode : List Nat :=
  let data := List.replicate 1 0
  data.set 0 19

deriving instance DecidableEq for Except

/-- `queue.Full`, raised by a non-blocking put on a full bounded queue. -/
inductive QueueFull where
  | full
  deriving DecidableEq, Repr

/-- A bounded `multiprocessing.Queue` of outbound command byte buffers:
FIFO contents plus the capacity fixed at construction. -/
structure BQueue where
  items : List (List Nat)
  capacity : Nat
  deriving DecidableEq, Repr

/-- `Queue.put(x, block=False)`: raises `queue.Full` when the queue is at
capacity, otherwise appends at the tail. -/
def BQueue.put (q : BQueue) (x : List Nat) : Except QueueFull BQueue :=
  if q.capacity ≤ q.items.length then .error .full
  else .ok { q with items := q.items ++ [x] }

/-- `TCPLink.send` (`network.py:80`): a non-blocking put wrapped in
`try ... except Full: return None`; the fallthrough path also returns `None`,
so the caller always receives `none` and a raised `Full` is swallowed. -/
def TCPLink_send (q : BQueue) (command : List Nat) : BQueue × Option Unit :=
  match q.put command with
  | .ok q' => (q', none)
  | .error _ => (q, none)

/-- Result of one `DurinActuator.__call__`: the value returned to the caller
(`some []` on the short-circuit branch, `none` otherwise), the outbound queue
after the call, and whether `tcp_link.send` was invoked. -/
structure CallResult where
  reply : Option (List (List Nat))
  queue : BQueue
  attempted : Bool
  deriving DecidableEq, Repr

/-- `DurinActuator.__call__` (`actuator.py:172`): indexes `command_bytes[0]`
(raising `IndexError` on an empty buffer), returns the empty reply list
without touching the link when that byte is 0, and otherwise sends the bytes
over the TCP link and returns `None`. -/
def DurinActuator_call (command_bytes : List Nat) (q : BQueue) :
    Except PyError CallResult :=
  match command_bytes with
  | [] => .error .indexError
  | b :: _ =>
    if b = 0 then .ok ⟨some [], q, false⟩
    else .ok ⟨none, (TCPLink_send q command_bytes).1, true⟩

/-- One call made on the external `Streamer` collaborator; the Start host is
the integer value of the IPv4 address. -/
inductive StreamerCall where
  | start (host : Nat) (port : Nat)
  | stop
  deriving DecidableEq, Repr

/-- `DVSServer._parse_command` (`server.py:126`), returning the list of
streamer calls made: an empty message does nothing; byte 0 = 0 starts a stream
at the host read little-endian from bytes 1..4 and the port read little-endian
from bytes 5..6; any other byte 0 stops the stream. -/
def DVSServer_parse (data : List Nat) : List StreamerCall :=
  match data with
  | [] => []
  | b :: rest =>
    if b = 0 then
      [.start (fromLEBytes (rest.take 4)) (fromLEBytes ((rest.drop 4).take 2))]
    else
      [.stop]

/-- `AEStreamer` private state (`server.py:30`): the capture process handle
and the log-forwarding process handle, both `None` when stopped. -/
structure AEState where
  aestream : Option Nat
  aestream_log : Option Nat
  deriving DecidableEq, Repr

/-- External process operations performed by `AEStreamer.stop_stream`. -/
inductive AEEffect where
  | terminate (pid : Nat)
  | wait (pid : Nat)
  | kill (pid : Nat)
  | join (pid : Nat)
  | pkill
  deriving DecidableEq, Repr

/-- `AEStreamer.stop_stream` (`server.py:64`): terminates whichever process
handles are present, always runs `pkill aestream`, and clears both handles;
the whole body sits in `try ... except`, so it never raises. -/
def AEStreamer_stop (s : AEState) : AEState × List AEEffect :=
  let e1 := match s.aestream with
    | some p => [.terminate p, .wait p, .kill p, .wait p]
    | none => []
  let e2 := match s.aestream_log with
    | some p => [.terminate p, .join p]
    | none => []
  (⟨none, none⟩, e1 ++ e2 ++ [AEEffect.pkill])

/-- Socket operations performed by `DVSClient.stop_stream`. -/
inductive DVSEffect where
  | send (sock : Nat) (message : List Nat)
  | close (sock : Nat)
  deriving DecidableEq, Repr

/-- `DVSClient.stop_stream` (`network.py:159`): when a socket is open it sends
the one-byte Stop message, closes the socket and forgets it; with no socket it
does nothing, so a repeated call performs no I/O and cannot raise. -/
def DVSClient_stop (sock : Option Nat) : Option Nat × List DVSEffect :=
  match sock with
  | some s => (none, [.send s [1], .close s])
  | none => (none, [])

/-- Modelled from the spec: the process-wide `SENSORS` id table
(`durin/io/__init__.py` is not in the sources). The spec fixes only that
`tof_a..tof_d` form a consecutive id range of four time-of-flight sensors and
that `misc` is a further id, so the table is kept abstract as the three ids
the aggregator consults. -/
structure SensorTable where
  tof_a : Nat
  tof_d : Nat
  misc : Nat
  deriving DecidableEq, Repr

/-- The decoded payload accompanying a sensor id: a flattened 2×8×8 depth
block for the time-of-flight sensors, or `[charge, voltage, imu(3×3)]` for
`misc`. -/
inductive Payload where
  | tofData (d : List ℚ)
  | miscData (charge voltage : ℚ) (imu : List ℚ)
  deriving DecidableEq, Repr

/-- The shared aggregator state of `DurinSensor` (`sensor.py:36`): the
flattened 8×8×8 depth volume, battery charge and voltage, the flattened 3×3
IMU matrix, the UWB scalar, the 50-slot ring buffer of inter-update deltas
with its write index, and the last-update timestamp. -/
structure SensorState where
  tof : List ℚ
  charge : ℚ
  voltage : ℚ
  imu : List ℚ
  uwb : ℚ
  ringbuffer : List ℚ
  ringbuffer_idx : Nat
  timestamp_update : ℚ
  deriving DecidableEq, Repr

/-- Modelled from the spec: `durin/io/ringbuffer.py` is not in the sources.
A fixed-capacity circular buffer with a running write counter. -/
structure RingBuffer where
  buffer : List ℚ
  counter : Nat
  deriving DecidableEq, Repr

/-- Modelled from the spec: `RingBuffer.append` pushes a value by overwriting
the oldest slot (the write position cycles through the fixed-capacity buffer)
and advancing the counter. -/
def RingBuffer.append (rb : RingBuffer) (x : ℚ) : RingBuffer :=
  { buffer := rb.buffer.set (rb.counter % rb.buffer.length) x,
    counter := rb.counter + 1 }

/-- `DurinSensor.consume` (`sensor.py:81`): a sensor id in `tof_a..tof_d`
writes its flattened 2×8×8 block at volume offset `(id - tof_a) * 2` layers;
id `misc` overwrites charge, voltage and the IMU matrix; then, for every item,
the delta since the last update is appended to the ring buffer and the
timestamp advanced. -/
def DurinSensor_consume (tbl : SensorTable) (time_now : ℚ)
    (item : Nat × Payload) (s : SensorState) : SensorState :=
  let (sensor_id, data) := item
  let s1 :=
    if tbl.tof_a ≤ sensor_id ∧ sensor_id ≤ tbl.tof_d then
      match data with
      | .tofData d =>
        let idx := (sensor_id - tbl.tof_a) * 2
        { s with tof := setSlice s.tof (idx * 64) ((idx + 2) * 64) d }
      | _ => s
    else s
  let s2 :=
    if sensor_id = tbl.misc then
      match data with
      | .miscData c v m => { s1 with charge := c, voltage := v, imu := m }
      | _ => s1
    else s1
  let buffer : RingBuffer := ⟨s2.ringbuffer, s2.ringbuffer_idx⟩
  let buffer := buffer.append (time_now - s2.timestamp_update)
  { s2 with
    ringbuffer := buffer.buffer,
    ringbuffer_idx := buffer.counter,
    timestamp_update := time_now }

/-- `np.mean` over a rational-valued array. -/
def npMean (l : List ℚ) : ℚ := l.sum / l.length

/-- The snapshot returned by `DurinSensor.read` (`sensor.py:16`). -/
structure Observation where
  tof : List ℚ
  charge : ℚ
  voltage : ℚ
  imu : List ℚ
  uwb : ℚ
  frequency : ℚ
  deriving DecidableEq, Repr

/-- `DurinSensor.read` (`sensor.py:60`): snapshots every shared field and
reports the update frequency `1 / (mean(ringbuffer) + 1e-7)`. -/
def DurinSensor_read (s : SensorState) : Observation :=
  { tof := s.tof
    charge := s.charge
    voltage := s.voltage
    imu := s.imu
    uwb := s.uwb
    frequency := 1 / (npMean s.ringbuffer + 1 / 10000000) }

/-- A concrete sensor-id table instantiating the spec-modelled `SENSORS`
range: `tof_a..tof_d = 4..7`, `misc = 20`. -/
def sampleTable : SensorTable := ⟨4, 7, 20⟩

/-- A concrete all-zero aggregator state used to instantiate theorems. -/
def sampleState : SensorState :=
  ⟨List.replicate 512 0, 0, 0, List.replicate 9 0, 0,
    List.replicate 50 0, 0, 0⟩

/-! ## Helper lemmas -/

theorem head?_some_ne_nil {l : List α} {x : α} (h : l.head? = some x) :
    l ≠ [] := by
  cases l
  · simp at h
  · simp

theorem pack_h_ok {x : Int} (h1 : -32768 ≤ x) (h2 : x ≤ 32767) :
    pack_h x = .ok (int16LE x) := by
  simp [pack_h, h1, h2]

theorem exBind_ok {α β : Type} {x : Except PyError α} {f : α → Except PyError β}
    {v : β} (h : (x >>= f) = .ok v) : ∃ a, x = .ok a ∧ f a = .ok v := by
  cases x with
  | error e => exact absurd h (by simp [Bind.bind, Except.bind])
  | ok a => exact ⟨a, rfl, h⟩

theorem byteSet_ok {l r : List Nat} {i v : Nat} (h : byteSet l i v = .ok r) :
    r = l.set i v := by
  unfold byteSet at h
  split at h
  · exact (Except.ok.injEq .. ▸ h).symm
  · exact absurd h (by simp)

theorem toBytes1LE_ok {n : Nat} {r : List Nat} (h : toBytes1LE n = .ok r) :
    r = [n] := by
  unfold toBytes1LE at h
  split at h
  · exact (Except.ok.injEq .. ▸ h).symm
  · exact absurd h (by simp)

theorem toBytes2LE_ok {n : Nat} {r : List Nat} (h : toBytes2LE n = .ok r) :
    r = [n % 256, n / 256] := by
  unfold toBytes2LE at h
  split at h
  · exact (Except.ok.injEq .. ▸ h).symm
  · exact absurd h (by simp)

theorem length_take_of_le {l : List α} {i : Nat} (hi : i ≤ l.length) :
    (l.take i).length = i := by
  simp [Nat.min_eq_left hi]

theorem setSlice_getElem?_of_lt {l xs : List α} {i j k : Nat}
    (hk : k < i) (hi : i ≤ l.length) :
    (setSlice l i j xs)[k]? = l[k]? := by
  unfold setSlice
  rw [List.getElem?_append_left
      (by rw [List.length_append, length_take_of_le hi]; omega),
    List.getElem?_append_left (by rw [length_take_of_le hi]; exact hk),
    List.getElem?_take_of_lt hk]

theorem setSlice_getElem?_mid {l xs : List α} {i j k : Nat}
    (hi : i ≤ l.length) (hk : k < xs.length) :
    (setSlice l i j xs)[i + k]? = xs[k]? := by
  unfold setSlice
  rw [List.getElem?_append_left
      (by rw [List.length_append, length_take_of_le hi]; omega),
    List.getElem?_append_right (by rw [length_take_of_le hi]; omega),
    length_take_of_le hi, Nat.add_sub_cancel_left]

theorem setSlice_getElem?_of_ge {l xs : List α} {i j k : Nat}
    (hi : i ≤ l.length) (hj : j = i + xs.length) (hk : i + xs.length ≤ k) :
    (setSlice l i j xs)[k]? = l[k]? := by
  unfold setSlice
  rw [List.getElem?_append_right
      (by rw [List.length_append, length_take_of_le hi]; omega),
    List.length_append, length_take_of_le hi, List.getElem?_drop]
  congr 1
  omega

/-! ## C1: Move / MoveWheels wire layout -/

/-- C1 (amended): whenever every packed value is `int16`-representable —
for `Move` this additionally requires `-32768 < rot`, and for `MoveWheels`
`-32768 < ne` and `-32768 < se`, since the firmware contract negates those
fields before packing — `Move.encode` returns exactly the 7 bytes
`[2, int16 LE vx, int16 LE vy, int16 LE -rot]` and `MoveWheels.encode`
returns exactly the 9 bytes `[3, int16 LE -se, int16 LE sw, int16 LE -ne,
int16 LE nw]`, reproducing the sign flips and field reordering bit-exact. -/
theorem move_encode_firmware_layout :
    (∀ vel_x vel_y rot : Int,
      -32768 ≤ vel_x → vel_x ≤ 32767 →
      -32768 ≤ vel_y → vel_y ≤ 32767 →
      -32768 < rot → rot ≤ 32767 →
      Move_encode vel_x vel_y rot =
        .ok ([2] ++ int16LE vel_x ++ int16LE vel_y ++ int16LE (-rot)))
  ∧ (∀ ne nw sw se : Int,
      -32768 < ne → ne ≤ 32767 →
      -32768 ≤ nw → nw ≤ 32767 →
      -32768 ≤ sw → sw ≤ 32767 →
      -32768 < se → se ≤ 32767 →
      MoveWheels_encode ne nw sw se =
        .ok ([3] ++ int16LE (-se) ++ int16LE sw ++ int16LE (-ne) ++
          int16LE nw)) := by
  constructor
  · intro vx vy rot a1 a2 a3 a4 a5 a6
    unfold Move_encode
    rw [pack_h_ok a1 a2, pack_h_ok a3 a4, pack_h_ok (x := -rot) (by omega) (by omega)]
    rfl
  · intro ne nw sw se a1 a2 a3 a4 a5 a6 a7 a8
    unfold MoveWheels_encode
    rw [pack_h_ok (x := -se) (by omega) (by omega), pack_h_ok a5 a6,
      pack_h_ok (x := -ne) (by omega) (by omega), pack_h_ok a3 a4]
    rfl

/-- C1 counterexample: `rot = -32768` is `int16`-representable, yet
`Move(0, 0, -32768).encode()` raises `struct.error` (packing `-rot = 32768`
overflows `<h`) instead of returning the claimed 7 bytes. -/
theorem move_encode_rot_min_raises :
    Move_encode 0 0 (-32768) = .error .structError ∧
    ∀ e, Move_encode 0 0 (-32768) ≠ .ok e := by
  constructor
  · decide
  · intro e h
    rw [show Move_encode 0 0 (-32768) = Except.error PyError.structError
      by decide] at h
    simp at h

/-- C1 witness: the amended layout theorem evaluated at
`Move(300, -150, 90)` and `MoveWheels(1, 2, 3, 4)`. -/
theorem move_encode_firmware_layout_witness :
    Move_encode 300 (-150) 90 = .ok [2, 44, 1, 106, 255, 166, 255] ∧
    MoveWheels_encode 1 2 3 4 = .ok [3, 252, 255, 3, 0, 255, 255, 2, 0] := by
  constructor
  · rw [move_encode_firmware_layout.1 300 (-150) 90 (by norm_num) (by norm_num)
      (by norm_num) (by norm_num) (by norm_num) (by norm_num)]
    decide
  · rw [move_encode_firmware_layout.2 1 2 3 4 (by norm_num) (by norm_num)
      (by norm_num) (by norm_num) (by norm_num) (by norm_num) (by norm_num)
      (by norm_num)]
    decide

/-! ## C2: StreamOn wire layout -/

theorem byteSet_lt {l : List Nat} {i v : Nat} (h : v < 256) :
    byteSet l i v = .ok (l.set i v) := by
  simp [byteSet, h]

theorem toBytes2LE_lt {n : Nat} (h : n < 65536) :
    toBytes2LE n = .ok [n % 256, n / 256] := by
  simp [toBytes2LE, h]

/-- C2 (amended): `StreamOn(host, port, period).encode()` returns 9 bytes —
id 18, the 4 IPv4 octets of `host` in order, `uint16` little-endian port,
`uint16` little-endian period. The spec's concrete example is wrong in one
byte: for port 4300 = 0x10CC the little-endian bytes are `0xCC, 0x10`, not
`0x2C, 0x10`, so the example value is
`[18, 192, 168, 1, 10, 0xCC, 0x10, 0x32, 0x00]`. -/
theorem streamon_encode_layout
    (host : String) (port period o0 o1 o2 o3 : Nat)
    (hsplit : (splitOnDot host.data).map pyInt =
      [.ok o0, .ok o1, .ok o2, .ok o3])
    (h0 : o0 < 256) (h1 : o1 < 256) (h2 : o2 < 256) (h3 : o3 < 256)
    (hp : port < 65536) (hq : period < 65536) :
    StreamOn_encode host port period =
      .ok [18, o0, o1, o2, o3, port % 256, port / 256,
        period % 256, period / 256] := by
  rcases hL : splitOnDot host.data with
    _ | ⟨x0, _ | ⟨x1, _ | ⟨x2, _ | ⟨x3, _ | ⟨x4, l⟩⟩⟩⟩⟩ <;>
    rw [hL] at hsplit <;> simp at hsplit
  obtain ⟨e0, e1, e2, e3⟩ := hsplit
  have g0 : pyGet [x0, x1, x2, x3] 0 = Except.ok x0 := rfl
  have g1 : pyGet [x0, x1, x2, x3] 1 = Except.ok x1 := rfl
  have g2 : pyGet [x0, x1, x2, x3] 2 = Except.ok x2 := rfl
  have g3 : pyGet [x0, x1, x2, x3] 3 = Except.ok x3 := rfl
  simp only [StreamOn_encode, hL, g0, g1, g2, g3, e0, e1, e2, e3,
    byteSet_lt h0, byteSet_lt h1, byteSet_lt h2, byteSet_lt h3,
    toBytes2LE_lt hp, toBytes2LE_lt hq, Bind.bind, Except.bind,
    pure, Except.pure]
  rfl

/-- C2 counterexample: the claimed example bytes are off in the port field:
`StreamOn("192.168.1.10", 4300, 50).encode()` produces port bytes
`0xCC, 0x10` (4300 little-endian), not `0x2C, 0x10`. -/
theorem streamon_example_port_bytes :
    StreamOn_encode "192.168.1.10" 4300 50 =
      .ok [18, 192, 168, 1, 10, 0xCC, 0x10, 0x32, 0x00] ∧
    StreamOn_encode "192.168.1.10" 4300 50 ≠
      .ok [18, 192, 168, 1, 10, 0x2C, 0x10, 0x32, 0x00] := by
  decide

/-- C2 witness: the amended layout theorem evaluated at
`StreamOn("192.168.1.10", 4300, 50)`. -/
theorem streamon_encode_layout_witness :
    StreamOn_encode "192.168.1.10" 4300 50 =
      .ok [18, 192, 168, 1, 10, 204, 16, 50, 0] := by
  rw [streamon_encode_layout "192.168.1.10" 4300 50 192 168 1 10
    (by decide) (by decide) (by decide) (by decide) (by decide)
    (by decide) (by decide)]

/-! ## C3: the id-0 / empty sentinel in DurinActuator -/

/-- C3 (amended): only a command whose first encoded byte is 0 short-circuits
`DurinActuator.__call__`, which then returns the empty reply list without any
enqueue. `PowerOff` encodes with id 1, so it does not short-circuit: the
actuator sends it over the TCP link and returns `None`; an empty encoding
raises `IndexError` rather than returning an empty reply. -/
theorem actuator_call_zero_id_short_circuit :
    (∀ (rest : List Nat) (q : BQueue),
      DurinActuator_call (0 :: rest) q = .ok ⟨some [], q, false⟩)
  ∧ (∀ q : BQueue, DurinActuator_call [] q = .error .indexError)
  ∧ (∀ q : BQueue,
      DurinActuator_call PowerOff_encode q =
        .ok ⟨none, (TCPLink_send q PowerOff_encode).1, true⟩) :=
  ⟨fun _ _ => rfl, fun _ => rfl, fun _ => rfl⟩

/-- C3 counterexample: calling the actuator with `PowerOff` on an empty
2-slot queue enqueues the bytes `[1]` and returns `None` — it neither
short-circuits nor returns the empty reply list. -/
theorem actuator_call_poweroff_sends :
    DurinActuator_call PowerOff_encode ⟨[], 2⟩ =
      .ok ⟨none, ⟨[[1]], 2⟩, true⟩ ∧
    DurinActuator_call PowerOff_encode ⟨[], 2⟩ ≠
      .ok ⟨some [], ⟨[], 2⟩, false⟩ := by
  decide

/-! ## C4: DVS control-plane parser -/

/-- C4: for every non-empty control message, byte 0 = 0 makes the server call
`start_stream` exactly once — host read little-endian from bytes 1..4, port
little-endian from bytes 5..6, trailing bytes ignored, `stop_stream` not
called — while any nonzero byte 0 makes it call `stop_stream` exactly once
and `start_stream` never. -/
theorem dvs_parse_start_stop :
    (∀ (b : Nat) (rest : List Nat), b = 0 →
      DVSServer_parse (b :: rest) =
        [.start (fromLEBytes (rest.take 4))
          (fromLEBytes ((rest.drop 4).take 2))])
  ∧ (∀ (b : Nat) (rest : List Nat), b ≠ 0 →
      DVSServer_parse (b :: rest) = [.stop]) := by
  constructor
  · intro b rest hb
    subst hb
    rfl
  · intro b rest hb
    simp [DVSServer_parse, hb]

/-- C4 witness: a Start message for 127.0.0.10:300 with a trailing byte, and
a Stop message with payload. -/
theorem dvs_parse_start_stop_witness :
    DVSServer_parse [0, 10, 0, 0, 127, 44, 1, 99] =
      [.start 2130706442 300] ∧
    DVSServer_parse [7, 1, 2] = [.stop] := by
  constructor
  · rw [dvs_parse_start_stop.1 0 [10, 0, 0, 127, 44, 1, 99] rfl]
    decide
  · exact dvs_parse_start_stop.2 7 [1, 2] (by decide)

/-! ## C6: TCPLink.send never raises, drops on full -/

/-- C6: `TCPLink.send` catches the only exception its non-blocking put can
raise (`queue.Full`) and is total: it always hands `None` back to the caller,
silently drops the command leaving the queue unchanged when the queue is
full, and otherwise appends the command. A dropped command is never surfaced
as an error. -/
theorem tcp_send_fire_and_forget (q : BQueue) (command : List Nat) :
    (TCPLink_send q command).2 = none ∧
    (q.capacity ≤ q.items.length → (TCPLink_send q command).1 = q) ∧
    (q.items.length < q.capacity →
      (TCPLink_send q command).1 =
        { q with items := q.items ++ [command] }) := by
  unfold TCPLink_send BQueue.put
  rcases Nat.lt_or_ge q.items.length q.capacity with h | h
  · rw [if_neg (by omega)]
    exact ⟨rfl, fun hc => absurd hc (by omega), fun _ => rfl⟩
  · rw [if_pos h]
    exact ⟨rfl, fun _ => rfl, fun hc => absurd hc (by omega)⟩

/-- C6 witness: the send theorem evaluated on a full 2-slot queue (dropped,
queue unchanged) and on an empty queue (appended). -/
theorem tcp_send_fire_and_forget_witness :
    (TCPLink_send ⟨[[1], [2]], 2⟩ [3]).2 = none ∧
    (TCPLink_send ⟨[[1], [2]], 2⟩ [3]).1 = ⟨[[1], [2]], 2⟩ ∧
    (TCPLink_send ⟨[], 2⟩ [3]).1 = ⟨[[3]], 2⟩ := by
  refine ⟨(tcp_send_fire_and_forget ⟨[[1], [2]], 2⟩ [3]).1,
    (tcp_send_fire_and_forget ⟨[[1], [2]], 2⟩ [3]).2.1 (by decide), ?_⟩
  have h := (tcp_send_fire_and_forget ⟨[], 2⟩ [3]).2.2 (by decide)
  exact h.trans (by decide)

/-! ## C9: stop_stream idempotence -/

/-- C9: `stop_stream` is idempotent for both the `AEStreamer` implementation
and the `DVSClient` proxy: both bodies are total (`AEStreamer.stop_stream`
wraps everything in `try/except`, `DVSClient.stop_stream` guards on the
socket), a second call after the stream is halted leaves the state (process
handles, socket) at the already-stopped value, and the stopped client
performs no further socket I/O. -/
theorem stop_stream_idempotent :
    (∀ s : AEState,
      (AEStreamer_stop (AEStreamer_stop s).1).1 = (AEStreamer_stop s).1)
  ∧ (AEStreamer_stop ⟨none, none⟩).1 = ⟨none, none⟩
  ∧ (∀ sock : Option Nat,
      (DVSClient_stop (DVSClient_stop sock).1).1 = (DVSClient_stop sock).1)
  ∧ DVSClient_stop none = (none, []) := by
  refine ⟨fun s => rfl, rfl, fun sock => ?_, rfl⟩
  cases sock <;> rfl

/-! ## C5: TOF packets land on two consecutive depth layers -/

/-- C5: consuming a telemetry item whose sensor id lies in `tof_a..tof_d`
writes its 2×8×8 payload into the flattened 8×8×8 depth volume exactly at
flattened positions `[idx*64, (idx+2)*64)` where `idx = (id - tof_a) * 2`
(layers `idx` and `idx+1`), leaves every other depth position unchanged, and
leaves charge, voltage and imu unchanged. -/
theorem consume_tof_writes_two_layers
    (tbl : SensorTable) (s : SensorState) (sensor_id : Nat) (d : List ℚ)
    (now : ℚ)
    (htbl : tbl.tof_d = tbl.tof_a + 3)
    (hmisc : tbl.misc < tbl.tof_a ∨ tbl.tof_d < tbl.misc)
    (hlo : tbl.tof_a ≤ sensor_id) (hhi : sensor_id ≤ tbl.tof_d)
    (hs : s.tof.length = 512) (hd : d.length = 128) :
    (DurinSensor_consume tbl now (sensor_id, .tofData d) s).tof.length
        = 512 ∧
    (∀ j, j < (sensor_id - tbl.tof_a) * 2 * 64 →
      (DurinSensor_consume tbl now (sensor_id, .tofData d) s).tof[j]?
        = s.tof[j]?) ∧
    (∀ j, ((sensor_id - tbl.tof_a) * 2 + 2) * 64 ≤ j →
      (DurinSensor_consume tbl now (sensor_id, .tofData d) s).tof[j]?
        = s.tof[j]?) ∧
    (∀ j, j < 128 →
      (DurinSensor_consume tbl now (sensor_id, .tofData d)
        s).tof[(sensor_id - tbl.tof_a) * 2 * 64 + j]? = d[j]?) ∧
    (DurinSensor_consume tbl now (sensor_id, .tofData d) s).charge
      = s.charge ∧
    (DurinSensor_consume tbl now (sensor_id, .tofData d) s).voltage
      = s.voltage ∧
    (DurinSensor_consume tbl now (sensor_id, .tofData d) s).imu = s.imu := by
  have hne : ¬ sensor_id = tbl.misc := by rcases hmisc with h | h <;> omega
  have hcond : tbl.tof_a ≤ sensor_id ∧ sensor_id ≤ tbl.tof_d := ⟨hlo, hhi⟩
  have hidx : sensor_id - tbl.tof_a ≤ 3 := by omega
  simp only [DurinSensor_consume]
  rw [if_pos hcond, if_neg hne]
  refine ⟨?_, ?_, ?_, ?_, rfl, rfl, rfl⟩
  · simp only [setSlice, List.length_append, List.length_take,
      List.length_drop, hs, hd]
    omega
  · intro j hj
    exact setSlice_getElem?_of_lt hj (by rw [hs]; omega)
  · intro j hj
    exact setSlice_getElem?_of_ge (by rw [hs]; omega) (by rw [hd]; omega)
      (by omega)
  · intro j hj
    exact setSlice_getElem?_mid (by rw [hs]; omega) (by omega)

/-- C5 witness: with the modelled table, feeding a 128-element block of ones
for sensor id 5 (= tof_b) fills layers 2..3, i.e. flattened positions
128..255, and leaves charge at its old value. -/
theorem consume_tof_writes_two_layers_witness :
    (DurinSensor_consume sampleTable 2 (5, .tofData (List.replicate 128 1))
      sampleState).tof[128]? = some 1 ∧
    (DurinSensor_consume sampleTable 2 (5, .tofData (List.replicate 128 1))
      sampleState).tof[127]? = some 0 ∧
    (DurinSensor_consume sampleTable 2 (5, .tofData (List.replicate 128 1))
      sampleState).charge = 0 := by
  have h := consume_tof_writes_two_layers sampleTable sampleState 5
    (List.replicate 128 1) 2 (by decide) (by decide) (by decide) (by decide)
    (by decide) (by decide)
  refine ⟨?_, ?_, ?_⟩
  · have h2 := h.2.2.2.1 0 (by decide)
    simpa [sampleTable] using h2
  · have h2 := h.2.1 127 (by decide)
    rw [h2]
    decide
  · rw [h.2.2.2.2.1]
    rfl

/-! ## C7: unrecognized sensor ids -/

/-- C7 (amended): consuming a telemetry item whose sensor id matches no known
sensor (neither `tof_a..tof_d` nor `misc`) leaves the depth volume, charge,
voltage, imu and uwb at their previous values, but — contrary to the claim —
the frequency-estimator state is still mutated exactly as for a recognized
packet: the delta is written into the ring buffer, the write index advances,
and the last-update timestamp is set to now. -/
theorem consume_unknown_id_keeps_sensor_fields
    (tbl : SensorTable) (s : SensorState) (sensor_id : Nat) (p : Payload)
    (now : ℚ)
    (hnotof : ¬(tbl.tof_a ≤ sensor_id ∧ sensor_id ≤ tbl.tof_d))
    (hnomisc : sensor_id ≠ tbl.misc)
    (hrb : s.ringbuffer.length = 50) :
    DurinSensor_consume tbl now (sensor_id, p) s =
      { s with
        ringbuffer := s.ringbuffer.set (s.ringbuffer_idx % 50)
          (now - s.timestamp_update),
        ringbuffer_idx := s.ringbuffer_idx + 1,
        timestamp_update := now } := by
  simp only [DurinSensor_consume]
  rw [if_neg hnotof, if_neg hnomisc]
  simp [RingBuffer.append, hrb]

/-- C7 counterexample: with the modelled table, sensor id 99 matches no known
sensor, yet consuming it changes the ring-buffer index and the last-update
timestamp — the claim that all aggregator state is retained is false. -/
theorem consume_unknown_id_mutates_freq_state :
    (DurinSensor_consume sampleTable 1 (99, .tofData [])
        sampleState).ringbuffer_idx ≠ sampleState.ringbuffer_idx ∧
    (DurinSensor_consume sampleTable 1 (99, .tofData [])
        sampleState).timestamp_update ≠ sampleState.timestamp_update := by
  exact ⟨by decide, by decide⟩

/-- C7 witness: the amended theorem evaluated at sensor id 99 on the all-zero
state. -/
theorem consume_unknown_id_keeps_sensor_fields_witness :
    DurinSensor_consume sampleTable 1 (99, .miscData 5 6 []) sampleState =
      { sampleState with
        ringbuffer := sampleState.ringbuffer.set 0 1,
        ringbuffer_idx := 1,
        timestamp_update := 1 } := by
  have h := consume_unknown_id_keeps_sensor_fields sampleTable sampleState 99
    (.miscData 5 6 []) 1 (by decide) (by decide) (by decide)
  rw [h, show sampleState.ringbuffer_idx = 0 from rfl,
    show sampleState.timestamp_update = 0 from rfl]
  norm_num

/-! ## C8: frequency-estimator update and read-out -/

theorem consume_freq_fields (tbl : SensorTable) (now : ℚ) (sensor_id : Nat)
    (p : Payload) (s : SensorState) :
    (DurinSensor_consume tbl now (sensor_id, p) s).ringbuffer =
      s.ringbuffer.set (s.ringbuffer_idx % s.ringbuffer.length)
        (now - s.timestamp_update) ∧
    (DurinSensor_consume tbl now (sensor_id, p) s).ringbuffer_idx =
      s.ringbuffer_idx + 1 ∧
    (DurinSensor_consume tbl now (sensor_id, p) s).timestamp_update
      = now := by
  by_cases h1 : tbl.tof_a ≤ sensor_id ∧ sensor_id ≤ tbl.tof_d <;>
    by_cases h2 : sensor_id = tbl.misc <;>
    rcases p with d | ⟨c, v, m⟩ <;>
    simp [DurinSensor_consume, h1, h2, RingBuffer.append] <;>
    (split <;> simp)

/-- C8: on every consumed telemetry item the delta `now - last_update_time`
is pushed into the capacity-50 ring buffer — written at the current index
modulo 50, overwriting the oldest entry on overflow — the write index
advances and the last-update timestamp is set to now; and `read()` reports
an update frequency of `1 / (mean(ringbuffer) + 1e-7)`, the mean taken over
all 50 slots. -/
theorem consume_pushes_delta_and_read_frequency
    (tbl : SensorTable) (item : Nat × Payload) (s : SensorState) (now : ℚ)
    (hrb : s.ringbuffer.length = 50) :
    (DurinSensor_consume tbl now item s).ringbuffer =
      s.ringbuffer.set (s.ringbuffer_idx % 50) (now - s.timestamp_update) ∧
    (DurinSensor_consume tbl now item s).ringbuffer_idx =
      s.ringbuffer_idx + 1 ∧
    (DurinSensor_consume tbl now item s).timestamp_update = now ∧
    (DurinSensor_read s).frequency =
      1 / (s.ringbuffer.sum / 50 + 1 / 10000000) := by
  obtain ⟨sensor_id, p⟩ := item
  obtain ⟨h1, h2, h3⟩ := consume_freq_fields tbl now sensor_id p s
  refine ⟨by rw [h1, hrb], h2, h3, ?_⟩
  simp [DurinSensor_read, npMean, hrb]

/-- C8 witness: consuming a `misc` item on the all-zero state advances the
ring-buffer index to 1 and stores the delta, and the all-zero ring buffer
reads out as frequency `1 / 1e-7 = 10^7`. -/
theorem consume_pushes_delta_witness :
    (DurinSensor_consume sampleTable 3
      (20, .miscData 1 2 (List.replicate 9 0)) sampleState).ringbuffer_idx
        = 1 ∧
    (DurinSensor_read sampleState).frequency = 10000000 := by
  have h := consume_pushes_delta_and_read_frequency sampleTable
    (20, .miscData 1 2 (List.replicate 9 0)) sampleState 3 (by decide)
  refine ⟨h.2.1, h.2.2.2.trans ?_⟩
  rw [show sampleState.ringbuffer = List.replicate 50 (0 : ℚ) from rfl,
    List.sum_replicate]
  norm_num

/-! ## C10: all command ids are nonzero, every command is sent -/

theorem pack_h_shape {x : Int} {r : List Nat} (h : pack_h x = .ok r) :
    r = int16LE x := by
  unfold pack_h at h
  split at h
  · exact (Except.ok.injEq .. ▸ h).symm
  · exact absurd h (by simp)

theorem Move_encode_ok {vx vy rot : Int} {e : List Nat}
    (h : Move_encode vx vy rot = .ok e) : e.head? = some 2 ∧ e ≠ [] := by
  unfold Move_encode at h
  obtain ⟨a, ha, h⟩ := exBind_ok h
  obtain ⟨b, hb, h⟩ := exBind_ok h
  obtain ⟨c, hc, h⟩ := exBind_ok h
  simp only [pure, Except.pure] at h
  injection h with h
  subst h
  exact ⟨rfl, head?_some_ne_nil rfl⟩

theorem MoveWheels_encode_ok {ne nw sw se : Int} {e : List Nat}
    (h : MoveWheels_encode ne nw sw se = .ok e) :
    e.head? = some 3 ∧ e ≠ [] := by
  unfold MoveWheels_encode at h
  obtain ⟨a, ha, h⟩ := exBind_ok h
  obtain ⟨b, hb, h⟩ := exBind_ok h
  obtain ⟨c, hc, h⟩ := exBind_ok h
  obtain ⟨d, hd, h⟩ := exBind_ok h
  simp only [pure, Except.pure] at h
  injection h with h
  subst h
  exact ⟨rfl, head?_some_ne_nil rfl⟩

theorem PollSensor_encode_ok {sid : Nat} {e : List Nat}
    (h : PollSensor_encode sid = .ok e) : e.head? = some 17 ∧ e ≠ [] := by
  unfold PollSensor_encode at h
  obtain ⟨a, ha, h⟩ := exBind_ok h
  simp only [pure, Except.pure] at h
  injection h with h
  subst h
  exact ⟨rfl, head?_some_ne_nil rfl⟩

theorem StreamOn_encode_ok {host : String} {port period : Nat}
    {e : List Nat} (h : StreamOn_encode host port period = .ok e) :
    e.head? = some 18 ∧ e ≠ [] := by
  unfold StreamOn_encode at h
  obtain ⟨x0, hx0, h⟩ := exBind_ok h
  obtain ⟨v0, hv0, h⟩ := exBind_ok h
  obtain ⟨d1, hd1, h⟩ := exBind_ok h
  obtain ⟨x1, hx1, h⟩ := exBind_ok h
  obtain ⟨v1, hv1, h⟩ := exBind_ok h
  obtain ⟨d2, hd2, h⟩ := exBind_ok h
  obtain ⟨x2, hx2, h⟩ := exBind_ok h
  obtain ⟨v2, hv2, h⟩ := exBind_ok h
  obtain ⟨d3, hd3, h⟩ := exBind_ok h
  obtain ⟨x3, hx3, h⟩ := exBind_ok h
  obtain ⟨v3, hv3, h⟩ := exBind_ok h
  obtain ⟨d4, hd4, h⟩ := exBind_ok h
  obtain ⟨pb, hpb, h⟩ := exBind_ok h
  obtain ⟨qb, hqb, h⟩ := exBind_ok h
  obtain rfl := byteSet_ok hd1
  obtain rfl := byteSet_ok hd2
  obtain rfl := byteSet_ok hd3
  obtain rfl := byteSet_ok hd4
  simp only [pure, Except.pure] at h
  injection h with h
  subst h
  exact ⟨rfl, head?_some_ne_nil rfl⟩

/-- C10: every one of the seven command variants encodes — whenever encoding
succeeds, for the fallible encoders — to a non-empty buffer whose byte 0 is
that variant's fixed command id in 1, 2, 3, 16, 17, 18, 19, all nonzero;
and `DurinActuator.__call__` on any buffer whose first byte is nonzero never
takes the empty-reply short-circuit branch: it always attempts a send over
the TCP link and returns `None`. -/
theorem command_ids_nonzero :
    (PowerOff_encode.head? = some 1 ∧ PowerOff_encode ≠ [])
  ∧ (∀ (vx vy rot : Int) (e : List Nat), Move_encode vx vy rot = .ok e →
      e.head? = some 2 ∧ e ≠ [])
  ∧ (∀ (ne nw sw se : Int) (e : List Nat),
      MoveWheels_encode ne nw sw se = .ok e → e.head? = some 3 ∧ e ≠ [])
  ∧ (PollAll_encode.head? = some 16 ∧ PollAll_encode ≠ [])
  ∧ (∀ (sid : Nat) (e : List Nat), PollSensor_encode sid = .ok e →
      e.head? = some 17 ∧ e ≠ [])
  ∧ (∀ (host : String) (port period : Nat) (e : List Nat),
      StreamOn_encode host port period = .ok e →
      e.head? = some 18 ∧ e ≠ [])
  ∧ (StreamOff_encode.head? = some 19 ∧ StreamOff_encode ≠ [])
  ∧ (∀ (b : Nat) (rest : List Nat) (q : BQueue), b ≠ 0 →
      DurinActuator_call (b :: rest) q =
        .ok ⟨none, (TCPLink_send q (b :: rest)).1, true⟩) := by
  refine ⟨⟨rfl, by decide⟩, fun _ _ _ _ h => Move_encode_ok h,
    fun _ _ _ _ _ h => MoveWheels_encode_ok h, ⟨rfl, by decide⟩,
    fun _ _ h => PollSensor_encode_ok h,
    fun _ _ _ _ h => StreamOn_encode_ok h, ⟨rfl, by decide⟩,
    fun b rest q hb => ?_⟩
  simp [DurinActuator_call, hb]

/-- C10 witness: the id theorem applied to concrete `Move` and `PollSensor`
encodings and to a `StreamOff` call on an empty 2-slot queue. -/
theorem command_ids_nonzero_witness :
    ([2, 44, 1, 106, 255, 166, 255] : List Nat).head? = some 2 ∧
    ([17, 5] : List Nat).head? = some 17 ∧
    DurinActuator_call [19] ⟨[], 2⟩ = .ok ⟨none, ⟨[[19]], 2⟩, true⟩ := by
  refine ⟨(command_ids_nonzero.2.1 300 (-150) 90 _ (by decide)).1,
    (command_ids_nonzero.2.2.2.2.1 5 _ (by decide)).1, ?_⟩
  have h := command_ids_nonzero.2.2.2.2.2.2.2 19 [] ⟨[], 2⟩ (by decide)
  exact h.trans (by decide)

end Durin
